import Mathlib

/-!
Verification of the `ags4_cli` command-line front end (`python_ags4/ags4_cli.py`).

The CLI is pure dispatch: it parses arguments, branches on the file extensions
of the input and output paths, and delegates to external collaborator functions
(`AGS4.AGS4_to_excel`, `AGS4.excel_to_AGS4`, `AGS4.check_file`) while printing
console messages.  We embed each subcommand as a pure function from its
arguments (and, for `check`, the error report the external validator returns)
to the list of observable events it produces: console prints, collaborator
calls, and file writes.
-/

namespace Ags4Cli

/-- An error record in the validation report: `AGS4.check_file` returns a
mapping from rule-group key to an ordered list of records, each carrying a
line number, a group label and a description.  The CLI only consumes this
shape. -/
structure ErrorEntry where
  line : Nat
  group : String
  desc : String
deriving DecidableEq

/-- The validation report: an insertion-ordered mapping from rule-group key
to its list of error records (Python dicts preserve insertion order). -/
abbrev Report := List (String × List ErrorEntry)

/-- Observable events emitted by the CLI: console output, collaborator calls
and file writes. -/
inductive Event where
  | openRead (path : String)
  | openWrite (path : String)
  | consolePrint (msg : String)
  | callAGS4ToExcel (input output : String)
  | callExcelToAGS4 (input output : String) (formatNumericColumns : Bool) (dictionary : Option String)
  | callCheckFile (input dictionary : String)
  | writeFile (path : String) (lines : List String)
deriving DecidableEq

/-- Python `s.endswith(suffix)`: the characters of `suffix` are a suffix of
the characters of `s`. -/
def strEndsWith (s suffix : String) : Bool :=
  decide (suffix.data <:+ s.data)

/-- Python `s.startswith(pre)`: the characters of `pre` are a prefix of the
characters of `s`. -/
def strStartsWith (s pre : String) : Bool :=
  decide (pre.data <+: s.data)

/-- Python `s.strip(c)` for a single character: remove every leading and
trailing occurrence of `c`. -/
def stripChar (c : Char) (s : String) : String :=
  String.mk (((s.data.dropWhile (· == c)).reverse.dropWhile (· == c)).reverse)

/-- Python `format_columns.lower() in ['true', 'yes']` (line 64 of the
source): the `format_numeric_columns` flag passed to `excel_to_AGS4`. -/
def formatFlag (format_columns : String) : Bool :=
  ["true", "yes"].contains format_columns.toLower

/-- Python `input_file.split('.')[-1]` (line 76 of the source). -/
def fileTypeOf (input_file : String) : String :=
  (input_file.splitOn ".").getLastD ""

/-- The body of the `convert` subcommand (lines 49-81 of the source):
dispatch on the extension pairing of the input and output paths. -/
def convert (input_file output_file format_columns : String)
    (dictionary : Option String) : List Event :=
  if strEndsWith input_file ".ags" && strEndsWith output_file ".xlsx" then
    [Event.consolePrint ("[green]Opening file... [bold]" ++ input_file ++ "[/bold][/green]"),
     Event.consolePrint ("[green]Exporting data to... [bold]" ++ output_file ++ "[/bold][/green]"),
     Event.consolePrint "",
     Event.callAGS4ToExcel input_file output_file,
     Event.consolePrint "\n[green]File conversion complete! :heavy_check_mark:[/green]\n"]
  else if strEndsWith input_file ".xlsx" && strEndsWith output_file ".ags" then
    [Event.consolePrint ("[green]Opening file... [bold]" ++ input_file ++ "[/bold][/green]"),
     Event.consolePrint ("[green]Exporting data to... [bold]" ++ output_file ++ "[/bold][/green]"),
     Event.consolePrint "",
     Event.callExcelToAGS4 input_file output_file (formatFlag format_columns) dictionary,
     Event.consolePrint "\n[green]File conversion complete! :heavy_check_mark:[/green]\n"]
  else if (strEndsWith input_file ".ags" && strEndsWith output_file ".ags")
      || (strEndsWith input_file ".xlsx" && strEndsWith output_file ".xlsx") then
    [Event.consolePrint ("[yellow]Both input and output files are of the same type (i.e. [bold]."
        ++ fileTypeOf input_file ++ "[/bold]). No conversion necessary.[/yellow]")]
  else
    [Event.consolePrint "[red]ERROR: Invalid filenames.[/red]",
     Event.consolePrint "[red]Try \"ags4_cli convert --help\" to see help and examples.[/red]"]

/-- The click argument-parsing stage of `convert` (lines 23-26 of the source):
`click.File('r')` opens the input eagerly and `click.File('w', lazy=False)`
opens — creates or truncates — the output file eagerly, before the command
body runs (the source comment: "The lazy=False option is used in order to
catch errors in the output file path before starting the program"); an
optional `-d` dictionary given as `click.File('r')` is opened too.  The
command body `convert` runs afterwards. -/
def convertInvocation (input_file output_file format_columns : String)
    (dictionary : Option String) : List Event :=
  [Event.openRead input_file, Event.openWrite output_file] ++
    (match dictionary with
     | none => []
     | some d => [Event.openRead d]) ++
    convert input_file output_file format_columns dictionary

/-- Is this event a call of one of the two conversion collaborators? -/
def Event.isConversionCall : Event → Bool
  | Event.callAGS4ToExcel _ _ => true
  | Event.callExcelToAGS4 _ _ _ _ => true
  | _ => false

/-- The conversion-collaborator calls contained in an event trace. -/
def conversionCalls (events : List Event) : List Event :=
  events.filter Event.isConversionCall

/-- The error count computed by the loop in `check` (lines 110-112 of the
source): `for key, val in ags_errors.items(): error_count += len(val)`. -/
def errorCount (ags_errors : Report) : Nat :=
  ags_errors.foldl (fun acc kv => acc + kv.snd.length) 0

/-- One on-screen error line (line 144 of the source):
`Line {entry['line']}\t [bold]{entry['group'].strip('"')}[/bold]\t {entry['desc']}`. -/
def screenEntryLine (e : ErrorEntry) : String :=
  "  Line " ++ toString e.line ++ "\t [bold]" ++ stripChar '"' e.group ++ "[/bold]\t " ++ e.desc

/-- `print_to_screen` (lines 140-146 of the source): for each rule-group key,
print the key, then each of its records in order, then a blank line. -/
def printToScreen (ags_errors : Report) : List Event :=
  ags_errors.flatMap (fun kv =>
    Event.consolePrint ("[underline]" ++ kv.fst ++ "[/underline]:") ::
      kv.snd.map (fun e => Event.consolePrint (screenEntryLine e)) ++
      [Event.consolePrint ""])

/-- One error line of the saved log (line 159 of the source). -/
def fileEntryLine (e : ErrorEntry) : String :=
  "  Line " ++ toString e.line ++ "\t " ++ stripChar '"' e.group ++ "\t " ++ e.desc

/-- The lines `save_to_file` writes (lines 149-161 of the source): a header
naming the input file, the error count, a blank line, then for each
rule-group key the key and its records in order followed by a blank line. -/
def reportLines (input_file : String) (error_count : Nat) (ags_errors : Report) : List String :=
  ["Input file: " ++ input_file, toString error_count ++ " errors found!", ""] ++
    ags_errors.flatMap (fun kv =>
      (kv.fst ++ ":") :: kv.snd.map fileEntryLine ++ [""])

/-- `save_to_file` as an event: write the report lines to `output_file`. -/
def saveToFile (output_file : String) (ags_errors : Report)
    (input_file : String) (error_count : Nat) : Event :=
  Event.writeFile output_file (reportLines input_file error_count ags_errors)

/-- Python `os.path.dirname` for POSIX paths: everything up to the last `/`;
a head that is not all slashes has its trailing slashes stripped. -/
def dirname (p : String) : String :=
  let cs := p.data
  let tailLen := (cs.reverse.takeWhile (fun c => !(c == '/'))).length
  let head := cs.take (cs.length - tailLen)
  if !head.isEmpty && !(head.all (fun c => c == '/')) then
    String.mk ((head.reverse.dropWhile (fun c => c == '/')).reverse)
  else
    String.mk head

/-- Python `os.path.join(dir, name)` for POSIX paths and one component. -/
def joinPath (dir name : String) : String :=
  if strStartsWith name "/" then name
  else if dir == "" || strEndsWith dir "/" then dir ++ name
  else dir ++ "/" ++ name

/-- The body of the `check` subcommand (lines 97-137 of the source),
parameterised by the report `ags_errors` that the external
`AGS4.check_file` returns for this input. -/
def check (input_file : String) (dictionary : String) (output_file : Option String)
    (ags_errors : Report) : List Event :=
  if strEndsWith input_file ".ags" then
    [Event.consolePrint ("[green]Opening file... [bold]" ++ input_file ++ "[/bold][/green]"),
     Event.consolePrint "",
     Event.callCheckFile input_file dictionary] ++
    (if ags_errors.isEmpty then
      [Event.consolePrint "\n[green]File check complete! No errors found. :heavy_check_mark:[/green]\n"]
    else
      let error_count := errorCount ags_errors
      if error_count < 100 then
        printToScreen ags_errors ++
        [Event.consolePrint ("\n[yellow]File check complete! " ++ toString error_count
          ++ " errors found![/yellow]")] ++
        (match output_file with
         | none => []
         | some f =>
           [saveToFile f ags_errors input_file error_count,
            Event.consolePrint ("\n[yellow]Error report saved in " ++ f ++ ".[/yellow]\n")])
      else
        [Event.consolePrint ("\n[yellow]File check complete! " ++ toString error_count
          ++ " errors found![/yellow]"),
         Event.consolePrint "\n[yellow]Error report too long to print to screen.[/yellow]"] ++
        (let out := match output_file with
          | none => joinPath (dirname input_file) "error_log.txt"
          | some f => f
         [saveToFile out ags_errors input_file error_count,
          Event.consolePrint ("\n[yellow]Error report saved in " ++ out ++ "[/yellow]\n")]))
  else
    [Event.consolePrint "[red]ERROR: Only .ags files are accepted as input.[/red]"]

/-- A concrete error record, for evaluating the embedding on closed inputs. -/
def sampleEntry : ErrorEntry :=
  { line := 3, group := "\"LOCA\"", desc := "Is not terminated by <CR> and <LF> characters." }

/-- A concrete one-group, one-record report. -/
def sampleReport : Report := [("AGS Format Rule 2a", [sampleEntry])]

/-- A concrete report with 100 records in a single group. -/
def longReport : Report := [("AGS Format Rule 2a", List.replicate 100 sampleEntry)]

end Ags4Cli

namespace Ags4Cli

/-- No path ends both in `.ags` and in `.xlsx`: the reversed suffixes would
both be prefixes of the reversed path, but neither is a prefix of the other. -/
theorem not_endsWith_ags_and_xlsx (s : String)
    (h1 : strEndsWith s ".ags" = true) (h2 : strEndsWith s ".xlsx" = true) : False := by
  rw [strEndsWith, decide_eq_true_iff] at h1 h2
  have p1 : (".ags".data).reverse <+: s.data.reverse := List.reverse_prefix.mpr h1
  have p2 : (".xlsx".data).reverse <+: s.data.reverse := List.reverse_prefix.mpr h2
  have hle : (".ags".data).reverse.length ≤ (".xlsx".data).reverse.length := by decide
  exact absurd (List.prefix_of_prefix_length_le p1 p2 hle) (by decide)

/-- A path ending in `.ags` does not end in `.xlsx`. -/
theorem ends_ags_not_xlsx (s : String) (h : strEndsWith s ".ags" = true) :
    strEndsWith s ".xlsx" = false := by
  cases hx : strEndsWith s ".xlsx"
  · rfl
  · exact (not_endsWith_ags_and_xlsx s h hx).elim

/-- A path ending in `.xlsx` does not end in `.ags`. -/
theorem ends_xlsx_not_ags (s : String) (h : strEndsWith s ".xlsx" = true) :
    strEndsWith s ".ags" = false := by
  cases hx : strEndsWith s ".ags"
  · rfl
  · exact (not_endsWith_ags_and_xlsx s hx h).elim

/-- Claim C1: for every input path ending in `.ags` and output path ending in
`.xlsx`, `convert` calls the AGS-to-spreadsheet conversion function exactly
once, passing the input path and the output path, and calls no other
conversion function. -/
theorem convert_ags_to_xlsx_calls_AGS4_to_excel_once
    (i o f : String) (d : Option String)
    (h1 : strEndsWith i ".ags" = true) (h2 : strEndsWith o ".xlsx" = true) :
    conversionCalls (convert i o f d) = [Event.callAGS4ToExcel i o] := by
  simp [convert, h1, h2, conversionCalls, List.filter, Event.isConversionCall]

/-- Witness for C1 at concrete paths `data.ags` and `data.xlsx`. -/
theorem convert_ags_to_xlsx_calls_AGS4_to_excel_once_witness :
    (strEndsWith "data.ags" ".ags" = true ∧ strEndsWith "data.xlsx" ".xlsx" = true) ∧
      conversionCalls (convert "data.ags" "data.xlsx" "true" none) =
        [Event.callAGS4ToExcel "data.ags" "data.xlsx"] :=
  ⟨⟨by decide, by decide⟩,
   convert_ags_to_xlsx_calls_AGS4_to_excel_once "data.ags" "data.xlsx" "true" none
     (by decide) (by decide)⟩

/-- Claim C2: for every input path ending in `.xlsx` and output path ending in
`.ags`, `convert` calls the spreadsheet-to-AGS conversion function exactly
once, passing the input path, the output path, the boolean flag derived from
the `--format_columns` option (`-f`) and the dictionary from the
`--dictionary` option (`-d`; `none` when absent). -/
theorem convert_xlsx_to_ags_calls_excel_to_AGS4_once
    (i o f : String) (d : Option String)
    (h1 : strEndsWith i ".xlsx" = true) (h2 : strEndsWith o ".ags" = true) :
    conversionCalls (convert i o f d) = [Event.callExcelToAGS4 i o (formatFlag f) d] := by
  have hi : strEndsWith i ".ags" = false := ends_xlsx_not_ags i h1
  simp [convert, h1, h2, hi, conversionCalls, List.filter, Event.isConversionCall]

/-- Witness for C2 at concrete paths `data.xlsx` and `data.ags` with a
dictionary path supplied. -/
theorem convert_xlsx_to_ags_calls_excel_to_AGS4_once_witness :
    (strEndsWith "data.xlsx" ".xlsx" = true ∧ strEndsWith "data.ags" ".ags" = true) ∧
      conversionCalls (convert "data.xlsx" "data.ags" "false" (some "dict.ags")) =
        [Event.callExcelToAGS4 "data.xlsx" "data.ags" (formatFlag "false") (some "dict.ags")] :=
  ⟨⟨by decide, by decide⟩,
   convert_xlsx_to_ags_calls_excel_to_AGS4_once "data.xlsx" "data.ags" "false" (some "dict.ags")
     (by decide) (by decide)⟩

/-- Claim C3: for every pair of input and output paths with the same
extension (both `.ags` or both `.xlsx`), `convert` prints the no-conversion
warning and calls no conversion function. -/
theorem convert_same_extension_is_noop_with_warning
    (i o f : String) (d : Option String)
    (h : (strEndsWith i ".ags" = true ∧ strEndsWith o ".ags" = true) ∨
         (strEndsWith i ".xlsx" = true ∧ strEndsWith o ".xlsx" = true)) :
    conversionCalls (convert i o f d) = [] ∧
      Event.consolePrint ("[yellow]Both input and output files are of the same type (i.e. [bold]."
        ++ fileTypeOf i ++ "[/bold]). No conversion necessary.[/yellow]") ∈ convert i o f d := by
  rcases h with ⟨h1, h2⟩ | ⟨h1, h2⟩
  · have ho : strEndsWith o ".xlsx" = false := ends_ags_not_xlsx o h2
    have hi : strEndsWith i ".xlsx" = false := ends_ags_not_xlsx i h1
    simp [convert, h1, h2, hi, ho, conversionCalls, List.filter, Event.isConversionCall]
  · have hi : strEndsWith i ".ags" = false := ends_xlsx_not_ags i h1
    have ho : strEndsWith o ".ags" = false := ends_xlsx_not_ags o h2
    simp [convert, h1, h2, hi, ho, conversionCalls, List.filter, Event.isConversionCall]

/-- Witness for C3 at two `.ags` paths. -/
theorem convert_same_extension_is_noop_with_warning_witness :
    ((strEndsWith "a.ags" ".ags" = true ∧ strEndsWith "b.ags" ".ags" = true) ∨
      (strEndsWith "a.ags" ".xlsx" = true ∧ strEndsWith "b.ags" ".xlsx" = true)) ∧
    (conversionCalls (convert "a.ags" "b.ags" "true" none) = [] ∧
      Event.consolePrint ("[yellow]Both input and output files are of the same type (i.e. [bold]."
        ++ fileTypeOf "a.ags" ++ "[/bold]). No conversion necessary.[/yellow]")
        ∈ convert "a.ags" "b.ags" "true" none) :=
  ⟨Or.inl ⟨by decide, by decide⟩,
   convert_same_extension_is_noop_with_warning "a.ags" "b.ags" "true" none
     (Or.inl ⟨by decide, by decide⟩)⟩

/-- Claim C4: for every extension pairing that is neither `.ags`→`.xlsx`, nor
`.xlsx`→`.ags`, nor same-extension, `convert` prints the two
invalid-filenames error messages and calls no conversion function (the
function is total, so nothing is raised). -/
theorem convert_invalid_pairing_prints_error
    (i o f : String) (d : Option String)
    (h1 : ¬(strEndsWith i ".ags" = true ∧ strEndsWith o ".xlsx" = true))
    (h2 : ¬(strEndsWith i ".xlsx" = true ∧ strEndsWith o ".ags" = true))
    (h3 : ¬(strEndsWith i ".ags" = true ∧ strEndsWith o ".ags" = true))
    (h4 : ¬(strEndsWith i ".xlsx" = true ∧ strEndsWith o ".xlsx" = true)) :
    convert i o f d =
      [Event.consolePrint "[red]ERROR: Invalid filenames.[/red]",
       Event.consolePrint "[red]Try \"ags4_cli convert --help\" to see help and examples.[/red]"]
      ∧ conversionCalls (convert i o f d) = [] := by
  have hc : convert i o f d =
      [Event.consolePrint "[red]ERROR: Invalid filenames.[/red]",
       Event.consolePrint "[red]Try \"ags4_cli convert --help\" to see help and examples.[/red]"] := by
    rw [convert]
    cases ha : strEndsWith i ".ags" <;> cases hb : strEndsWith o ".xlsx" <;>
      cases hc : strEndsWith i ".xlsx" <;> cases hd : strEndsWith o ".ags" <;>
      simp_all
  exact ⟨hc, by rw [hc]; rfl⟩

/-- Witness for C4 at two `.txt` paths. -/
theorem convert_invalid_pairing_prints_error_witness :
    (¬(strEndsWith "a.txt" ".ags" = true ∧ strEndsWith "b.txt" ".xlsx" = true)) ∧
    (convert "a.txt" "b.txt" "true" none =
      [Event.consolePrint "[red]ERROR: Invalid filenames.[/red]",
       Event.consolePrint "[red]Try \"ags4_cli convert --help\" to see help and examples.[/red]"]
      ∧ conversionCalls (convert "a.txt" "b.txt" "true" none) = []) :=
  ⟨by decide,
   convert_invalid_pairing_prints_error "a.txt" "b.txt" "true" none
     (by decide) (by decide) (by decide) (by decide)⟩

end Ags4Cli

namespace Ags4Cli

/-- The `--format_columns` flag lowered to a Bool: membership in the literal
list `['true', 'yes']` is exactly the disjunction of the two equalities. -/
theorem formatFlag_eq_decide (f : String) :
    formatFlag f = decide (f.toLower = "true" ∨ f.toLower = "yes") := by
  simp [formatFlag, List.contains, List.any, decide_eq_decide]

/-- Claim C10: in the `.xlsx`→`.ags` branch, the `format_numeric_columns`
flag passed to the conversion call is true exactly when the lowercased
`--format_columns` value is `true` or `yes`; any other value yields false
(no error), since the dispatch is by this total boolean. -/
theorem convert_format_columns_flag_iff
    (i o f : String) (d : Option String)
    (h1 : strEndsWith i ".xlsx" = true) (h2 : strEndsWith o ".ags" = true) :
    conversionCalls (convert i o f d) =
      [Event.callExcelToAGS4 i o (decide (f.toLower = "true" ∨ f.toLower = "yes")) d] := by
  have hi : strEndsWith i ".ags" = false := ends_xlsx_not_ags i h1
  rw [← formatFlag_eq_decide]
  simp [convert, h1, h2, hi, conversionCalls, List.filter, Event.isConversionCall]

/-- Witness for C10: the default value `true` yields a true flag, and the
misspelling `ture` yields a false flag, at concrete paths. -/
theorem convert_format_columns_flag_iff_witness :
    (strEndsWith "d.xlsx" ".xlsx" = true ∧ strEndsWith "d.ags" ".ags" = true) ∧
    conversionCalls (convert "d.xlsx" "d.ags" "true" none) =
      [Event.callExcelToAGS4 "d.xlsx" "d.ags"
        (decide ("true".toLower = "true" ∨ "true".toLower = "yes")) none] ∧
    conversionCalls (convert "d.xlsx" "d.ags" "ture" none) =
      [Event.callExcelToAGS4 "d.xlsx" "d.ags"
        (decide ("ture".toLower = "true" ∨ "ture".toLower = "yes")) none] :=
  ⟨⟨by decide, by decide⟩,
   convert_format_columns_flag_iff "d.xlsx" "d.ags" "true" none (by decide) (by decide),
   convert_format_columns_flag_iff "d.xlsx" "d.ags" "ture" none (by decide) (by decide)⟩

/-- Claim C8: every invocation of the `convert` subcommand opens the output
file for writing during argument parsing, before the extension dispatch
runs: the trace decomposes into a parsing part containing the eager
`openWrite` and no conversion call, followed by the dispatch body — so the
same-extension no-op case and the invalid-pairing error case also leave the
output file created or truncated. -/
theorem convert_output_file_opened_before_dispatch
    (i o f : String) (d : Option String) :
    ∃ pre, convertInvocation i o f d = pre ++ convert i o f d ∧
      Event.openWrite o ∈ pre ∧ conversionCalls pre = [] := by
  refine ⟨[Event.openRead i, Event.openWrite o] ++
      (match d with
       | none => []
       | some p => [Event.openRead p]), ?_, ?_, ?_⟩
  · simp [convertInvocation]
  · simp
  · cases d <;> rfl

/-- Claim C9: for every input path not ending in `.ags`, the `check`
subcommand prints only the rejection message; in particular it never calls
the external validation function, whatever report that function would have
returned. -/
theorem check_rejects_non_ags_input
    (i d : String) (o : Option String) (r : Report)
    (h : strEndsWith i ".ags" = false) :
    check i d o r = [Event.consolePrint "[red]ERROR: Only .ags files are accepted as input.[/red]"] := by
  simp [check, h]

/-- Witness for C9 at the concrete input `data.xlsx`. -/
theorem check_rejects_non_ags_input_witness :
    strEndsWith "data.xlsx" ".ags" = false ∧
      check "data.xlsx" "dict.ags" none [] =
        [Event.consolePrint "[red]ERROR: Only .ags files are accepted as input.[/red]"] :=
  ⟨by decide, check_rejects_non_ags_input "data.xlsx" "dict.ags" none [] (by decide)⟩

end Ags4Cli

namespace Ags4Cli

/-- Claim C5: for every `.ags` input whose validation report is non-empty
with total error count below 100, `check` prints the report to the terminal:
the trace contains `print_to_screen`'s output in full, which holds every
rule-group key followed by its records' line number, group label and
description. -/
theorem check_short_report_prints_every_error
    (i d : String) (o : Option String) (r : Report)
    (h1 : strEndsWith i ".ags" = true) (h2 : r.isEmpty = false)
    (h3 : errorCount r < 100) :
    (∃ post, check i d o r =
      [Event.consolePrint ("[green]Opening file... [bold]" ++ i ++ "[/bold][/green]"),
       Event.consolePrint "",
       Event.callCheckFile i d] ++ printToScreen r ++ post) ∧
    ∀ kv ∈ r, Event.consolePrint ("[underline]" ++ kv.fst ++ "[/underline]:") ∈ check i d o r ∧
      ∀ e ∈ kv.snd, Event.consolePrint (screenEntryLine e) ∈ check i d o r := by
  have hck : check i d o r =
      [Event.consolePrint ("[green]Opening file... [bold]" ++ i ++ "[/bold][/green]"),
       Event.consolePrint "",
       Event.callCheckFile i d] ++ printToScreen r ++
      ([Event.consolePrint ("\n[yellow]File check complete! " ++ toString (errorCount r)
          ++ " errors found![/yellow]")] ++
        (match o with
         | none => []
         | some fo =>
           [saveToFile fo r i (errorCount r),
            Event.consolePrint ("\n[yellow]Error report saved in " ++ fo ++ ".[/yellow]\n")])) := by
    simp [check, h1, h2, h3]
  refine ⟨⟨_, hck⟩, ?_⟩
  intro kv hkv
  have hsub : ∀ x : Event, x ∈ printToScreen r → x ∈ check i d o r := by
    intro x hx
    rw [hck]
    exact List.mem_append_left _ (List.mem_append_right _ hx)
  refine ⟨?_, ?_⟩
  · exact hsub _ (by
      rw [printToScreen, List.mem_flatMap]
      exact ⟨kv, hkv, List.mem_cons_self _ _⟩)
  · intro e he
    exact hsub _ (by
      rw [printToScreen, List.mem_flatMap]
      exact ⟨kv, hkv, List.mem_cons_of_mem _
        (List.mem_append_left _ (List.mem_map_of_mem _ he))⟩)

/-- Witness for C5 on a concrete one-record report. -/
theorem check_short_report_prints_every_error_witness :
    (strEndsWith "data.ags" ".ags" = true ∧ sampleReport.isEmpty = false ∧
      errorCount sampleReport < 100) ∧
    ((∃ post, check "data.ags" "dict.ags" none sampleReport =
      [Event.consolePrint ("[green]Opening file... [bold]" ++ "data.ags" ++ "[/bold][/green]"),
       Event.consolePrint "",
       Event.callCheckFile "data.ags" "dict.ags"] ++ printToScreen sampleReport ++ post) ∧
    ∀ kv ∈ sampleReport,
      Event.consolePrint ("[underline]" ++ kv.fst ++ "[/underline]:")
        ∈ check "data.ags" "dict.ags" none sampleReport ∧
      ∀ e ∈ kv.snd, Event.consolePrint (screenEntryLine e)
        ∈ check "data.ags" "dict.ags" none sampleReport) :=
  ⟨⟨by decide, by decide, by decide⟩,
   check_short_report_prints_every_error "data.ags" "dict.ags" none sampleReport
     (by decide) (by decide) (by decide)⟩

/-- Claim C6: for every `.ags` input whose validation report has at least
100 errors, and for every value of the `-o` option, `check` prints only the
four status messages — none of the error records — and writes the full
report to a file: the path given by `-o` when supplied, otherwise
`error_log.txt` in the directory of the input file. -/
theorem check_long_report_not_printed_saved_to_file
    (i d : String) (o : Option String) (r : Report)
    (h1 : strEndsWith i ".ags" = true) (h2 : r.isEmpty = false)
    (h3 : 100 ≤ errorCount r) :
    check i d o r =
      [Event.consolePrint ("[green]Opening file... [bold]" ++ i ++ "[/bold][/green]"),
       Event.consolePrint "",
       Event.callCheckFile i d,
       Event.consolePrint ("\n[yellow]File check complete! " ++ toString (errorCount r)
         ++ " errors found![/yellow]"),
       Event.consolePrint "\n[yellow]Error report too long to print to screen.[/yellow]",
       Event.writeFile (o.getD (joinPath (dirname i) "error_log.txt"))
         (reportLines i (errorCount r) r),
       Event.consolePrint ("\n[yellow]Error report saved in "
         ++ o.getD (joinPath (dirname i) "error_log.txt") ++ "[/yellow]\n")] := by
  have h3' : ¬ errorCount r < 100 := not_lt.mpr h3
  cases o <;> simp [check, h1, h2, h3', saveToFile]

/-- Witness for C6 on a concrete 100-record report, both without the `-o`
option (default `error_log.txt` beside the input) and with it. -/
theorem check_long_report_not_printed_saved_to_file_witness :
    (strEndsWith "/home/u/data.ags" ".ags" = true ∧ longReport.isEmpty = false ∧
      100 ≤ errorCount longReport) ∧
    check "/home/u/data.ags" "dict.ags" none longReport =
      [Event.consolePrint ("[green]Opening file... [bold]" ++ "/home/u/data.ags" ++ "[/bold][/green]"),
       Event.consolePrint "",
       Event.callCheckFile "/home/u/data.ags" "dict.ags",
       Event.consolePrint ("\n[yellow]File check complete! " ++ toString (errorCount longReport)
         ++ " errors found![/yellow]"),
       Event.consolePrint "\n[yellow]Error report too long to print to screen.[/yellow]",
       Event.writeFile ((none : Option String).getD (joinPath (dirname "/home/u/data.ags") "error_log.txt"))
         (reportLines "/home/u/data.ags" (errorCount longReport) longReport),
       Event.consolePrint ("\n[yellow]Error report saved in "
         ++ (none : Option String).getD (joinPath (dirname "/home/u/data.ags") "error_log.txt") ++ "[/yellow]\n")] ∧
    check "/home/u/data.ags" "dict.ags" (some "/tmp/my_log.txt") longReport =
      [Event.consolePrint ("[green]Opening file... [bold]" ++ "/home/u/data.ags" ++ "[/bold][/green]"),
       Event.consolePrint "",
       Event.callCheckFile "/home/u/data.ags" "dict.ags",
       Event.consolePrint ("\n[yellow]File check complete! " ++ toString (errorCount longReport)
         ++ " errors found![/yellow]"),
       Event.consolePrint "\n[yellow]Error report too long to print to screen.[/yellow]",
       Event.writeFile ((some "/tmp/my_log.txt").getD (joinPath (dirname "/home/u/data.ags") "error_log.txt"))
         (reportLines "/home/u/data.ags" (errorCount longReport) longReport),
       Event.consolePrint ("\n[yellow]Error report saved in "
         ++ (some "/tmp/my_log.txt").getD (joinPath (dirname "/home/u/data.ags") "error_log.txt") ++ "[/yellow]\n")] :=
  ⟨⟨by decide, by decide, by decide⟩,
   check_long_report_not_printed_saved_to_file "/home/u/data.ags" "dict.ags" none longReport
     (by decide) (by decide) (by decide),
   check_long_report_not_printed_saved_to_file "/home/u/data.ags" "dict.ags" (some "/tmp/my_log.txt") longReport
     (by decide) (by decide) (by decide)⟩

/-- The running-sum loop over the report equals, for any start value, the
start plus the sum of the group sizes. -/
theorem errorCount_foldl_aux (r : Report) (n : Nat) :
    r.foldl (fun acc kv => acc + kv.snd.length) n
      = n + (r.map (fun kv => kv.snd.length)).sum := by
  induction r generalizing n with
  | nil => simp
  | cons kv tl ih => simp [List.foldl, ih, Nat.add_assoc]

/-- An element's block is an infix of the flattened mapping. -/
theorem flatMap_block_within {α β : Type} (g : α → List β) (l : List α) (a : α)
    (h : a ∈ l) : g a <:+: l.flatMap g := by
  obtain ⟨s, t, rfl⟩ := List.append_of_mem h
  exact ⟨s.flatMap g, t.flatMap g, by simp⟩

/-- Claim C7: the error count `check` reports (the accumulation loop) equals
the sum over all rule-group keys of the number of records under that key;
the count line is in the saved log; and both the saved log and the on-screen
report list each group's key followed by that group's records in the order
of its sequence (as a contiguous block). -/
theorem report_count_is_sum_and_order_preserved (i : String) (r : Report) :
    errorCount r = (r.map (fun kv => kv.snd.length)).sum ∧
    (toString (errorCount r) ++ " errors found!") ∈ reportLines i (errorCount r) r ∧
    ∀ kv ∈ r,
      ((kv.fst ++ ":") :: kv.snd.map fileEntryLine) <:+: reportLines i (errorCount r) r ∧
      (Event.consolePrint ("[underline]" ++ kv.fst ++ "[/underline]:") ::
        kv.snd.map (fun e => Event.consolePrint (screenEntryLine e))) <:+: printToScreen r := by
  refine ⟨by rw [errorCount, errorCount_foldl_aux, Nat.zero_add], by simp [reportLines], ?_⟩
  intro kv hkv
  constructor
  · have hblock : ((kv.fst ++ ":") :: kv.snd.map fileEntryLine)
        <+: ((kv.fst ++ ":") :: kv.snd.map fileEntryLine ++ [""]) := ⟨[""], by simp⟩
    have hinfix := hblock.isInfix.trans
      (flatMap_block_within (fun kv => (kv.fst ++ ":") :: kv.snd.map fileEntryLine ++ [""]) r kv hkv)
    exact hinfix.trans (List.suffix_append _ _).isInfix
  · have hblock : (Event.consolePrint ("[underline]" ++ kv.fst ++ "[/underline]:") ::
        kv.snd.map (fun e => Event.consolePrint (screenEntryLine e)))
        <+: (Event.consolePrint ("[underline]" ++ kv.fst ++ "[/underline]:") ::
          kv.snd.map (fun e => Event.consolePrint (screenEntryLine e)) ++ [Event.consolePrint ""]) :=
      ⟨[Event.consolePrint ""], by simp⟩
    rw [printToScreen]
    exact hblock.isInfix.trans
      (flatMap_block_within (fun kv => Event.consolePrint ("[underline]" ++ kv.fst ++ "[/underline]:") ::
        kv.snd.map (fun e => Event.consolePrint (screenEntryLine e)) ++ [Event.consolePrint ""]) r kv hkv)

/-- Witness for C7 on a concrete one-record report. -/
theorem report_count_is_sum_and_order_preserved_witness :
    errorCount sampleReport = (sampleReport.map (fun kv => kv.snd.length)).sum ∧
    (toString (errorCount sampleReport) ++ " errors found!")
      ∈ reportLines "data.ags" (errorCount sampleReport) sampleReport ∧
    ∀ kv ∈ sampleReport,
      ((kv.fst ++ ":") :: kv.snd.map fileEntryLine)
        <:+: reportLines "data.ags" (errorCount sampleReport) sampleReport ∧
      (Event.consolePrint ("[underline]" ++ kv.fst ++ "[/underline]:") ::
        kv.snd.map (fun e => Event.consolePrint (screenEntryLine e))) <:+: printToScreen sampleReport :=
  report_count_is_sum_and_order_preserved "data.ags" sampleReport

end Ags4Cli
